import Mathlib

/-!
# BOUT++ : parallel tridiagonal Laplacian solvers and boundary operations

A shallow embedding of

* `src/invert/laplace/impls/parallel_tri/parallel_tri.hxx`
* `src/invert/laplace/impls/parallel_tri_multigrid/parallel_tri_multigrid.hxx`
* `include/boundary_op.hxx`

Member functions become functions from the object's state to an outcome paired with the
state after the call: a C++ exception leaves the object as it was at the throw, so the
state is kept next to the outcome also when the call throws.
-/

namespace BOUT

/-! ## Scalars, handles, fields -/

/-- BoutReal is `double` in the sources. The functions embedded here only store, copy and
compare such values and assign the literal `0`, so a value is stood for by a rational. -/
abbrev BoutReal := ℚ

/-- The C++ type `dcomplex`, a complex number with BoutReal parts. -/
structure dcomplex where
  re : BoutReal
  im : BoutReal
  deriving DecidableEq

/-- A raw C++ pointer (`Mesh*`, `BoundaryRegion*`, `BoundaryOp*`), compared by address. -/
abbrev Pointer := Option Nat

/-- The null pointer. -/
def nullptr : Pointer := none

/-- Cell locations of a field (the enum `CELL_LOC`). -/
inductive CELL_LOC where
  | CELL_DEFAULT
  | CELL_CENTRE
  | CELL_XLOW
  | CELL_YLOW
  | CELL_ZLOW
  | CELL_VSHIFT
  deriving DecidableEq

/-- The exception class thrown by the library, carrying its message. -/
structure BoutException where
  what : String
  deriving DecidableEq

/-- A two-dimensional field: its location tag, the mesh it lives on, and its values. -/
structure Field2D where
  location : CELL_LOC
  fieldmesh : Pointer
  data : List BoutReal
  deriving DecidableEq

/-- The accessor `Field2D::getLocation`. -/
def Field2D.getLocation (f : Field2D) : CELL_LOC := f.location

/-- The accessor `Field2D::getMesh`. -/
def Field2D.getMesh (f : Field2D) : Pointer := f.fieldmesh

/-- A three-dimensional field. -/
structure Field3D where
  location : CELL_LOC
  fieldmesh : Pointer
  data : List BoutReal
  deriving DecidableEq

/-- A field on one perpendicular slice, at the y index `yindex`. -/
structure FieldPerp where
  location : CELL_LOC
  fieldmesh : Pointer
  yindex : Int
  data : List BoutReal
  deriving DecidableEq

/-- The outcome of a call: normal return with a value, or a thrown BoutException. -/
abbrev Outcome (α : Type) := Except BoutException α

/-- The assertion `ASSERT1(condition)`, whose definition (`bout/assert.hxx`) lies outside
the sources embedded here and is taken through the build parameter `CHECKLEVEL`: at check
level 1 or above it throws a BoutException when the condition is false, and at check
level 0 it expands to nothing. -/
def ASSERT1 (CHECKLEVEL : Nat) (condition : Bool) : Outcome Unit :=
  if 1 ≤ CHECKLEVEL then
    if !condition then .error ⟨"Assertion failed"⟩ else .ok ()
  else .ok ()

/-! ## The solver base class -/

/-- The members of the base class `Laplacian` that the two solvers read. -/
structure Laplacian where
  location : CELL_LOC
  localmesh : Pointer
  deriving DecidableEq

/-! ## LaplaceParallelTri -/

/-- The state of a `LaplaceParallelTri` object. -/
structure LaplaceParallelTri extends Laplacian where
  A : Field2D
  C : Field2D
  D : Field2D
  initialized : Bool
  deriving DecidableEq

namespace LaplaceParallelTri

/-- The member `setCoefA` of LaplaceParallelTri. -/
def setCoefA (CHECKLEVEL : Nat) (self : LaplaceParallelTri) (val : Field2D) :
    Outcome Unit × LaplaceParallelTri :=
  match ASSERT1 CHECKLEVEL (val.getLocation == self.location) with
  | .error e => (.error e, self)
  | .ok () =>
    match ASSERT1 CHECKLEVEL (self.localmesh == val.getMesh) with
    | .error e => (.error e, self)
    | .ok () => (.ok (), { self with A := val })

/-- The member `setCoefC` of LaplaceParallelTri. -/
def setCoefC (CHECKLEVEL : Nat) (self : LaplaceParallelTri) (val : Field2D) :
    Outcome Unit × LaplaceParallelTri :=
  match ASSERT1 CHECKLEVEL (val.getLocation == self.location) with
  | .error e => (.error e, self)
  | .ok () =>
    match ASSERT1 CHECKLEVEL (self.localmesh == val.getMesh) with
    | .error e => (.error e, self)
    | .ok () => (.ok (), { self with C := val })

/-- The member `setCoefD` of LaplaceParallelTri. -/
def setCoefD (CHECKLEVEL : Nat) (self : LaplaceParallelTri) (val : Field2D) :
    Outcome Unit × LaplaceParallelTri :=
  match ASSERT1 CHECKLEVEL (val.getLocation == self.location) with
  | .error e => (.error e, self)
  | .ok () =>
    match ASSERT1 CHECKLEVEL (self.localmesh == val.getMesh) with
    | .error e => (.error e, self)
    | .ok () => (.ok (), { self with D := val })

/-- The member `setCoefEx` of LaplaceParallelTri: the argument is unused, the body throws. -/
def setCoefEx (self : LaplaceParallelTri) (_val : Field2D) :
    Outcome Unit × LaplaceParallelTri :=
  (.error ⟨"LaplaceParallelTri does not have Ex coefficient"⟩, self)

/-- The member `setCoefEz` of LaplaceParallelTri: the argument is unused, the body throws. -/
def setCoefEz (self : LaplaceParallelTri) (_val : Field2D) :
    Outcome Unit × LaplaceParallelTri :=
  (.error ⟨"LaplaceParallelTri does not have Ez coefficient"⟩, self)

end LaplaceParallelTri

/-! ## LaplaceParallelTriMG -/

/-- The state of a `LaplaceParallelTriMG` object: the private members of the class after
those of the base class. `Matrix<bool>` is a list of rows, `Tensor<dcomplex>` a list of
matrices. -/
structure LaplaceParallelTriMG extends Laplacian where
  A : Field2D
  C : Field2D
  D : Field2D
  first_call : List (List Bool)
  x0saved : List (List (List dcomplex))
  rtol : BoutReal
  atol : BoutReal
  maxits : Int
  max_level : Int
  max_cycle : Int
  ipt_mean_its : BoutReal
  ncalls : Int
  new_method : Bool
  use_previous_timestep : Bool
  store_coefficients : Bool
  nmode : Int
  index_in : Int
  index_out : Int
  proc_in : Int
  proc_out : Int
  deriving DecidableEq

namespace LaplaceParallelTriMG

/-- The member `setCoefA` of LaplaceParallelTriMG. -/
def setCoefA (CHECKLEVEL : Nat) (self : LaplaceParallelTriMG) (val : Field2D) :
    Outcome Unit × LaplaceParallelTriMG :=
  match ASSERT1 CHECKLEVEL (val.getLocation == self.location) with
  | .error e => (.error e, self)
  | .ok () =>
    match ASSERT1 CHECKLEVEL (self.localmesh == val.getMesh) with
    | .error e => (.error e, self)
    | .ok () => (.ok (), { self with A := val })

/-- The member `setCoefC` of LaplaceParallelTriMG. -/
def setCoefC (CHECKLEVEL : Nat) (self : LaplaceParallelTriMG) (val : Field2D) :
    Outcome Unit × LaplaceParallelTriMG :=
  match ASSERT1 CHECKLEVEL (val.getLocation == self.location) with
  | .error e => (.error e, self)
  | .ok () =>
    match ASSERT1 CHECKLEVEL (self.localmesh == val.getMesh) with
    | .error e => (.error e, self)
    | .ok () => (.ok (), { self with C := val })

/-- The member `setCoefD` of LaplaceParallelTriMG. -/
def setCoefD (CHECKLEVEL : Nat) (self : LaplaceParallelTriMG) (val : Field2D) :
    Outcome Unit × LaplaceParallelTriMG :=
  match ASSERT1 CHECKLEVEL (val.getLocation == self.location) with
  | .error e => (.error e, self)
  | .ok () =>
    match ASSERT1 CHECKLEVEL (self.localmesh == val.getMesh) with
    | .error e => (.error e, self)
    | .ok () => (.ok (), { self with D := val })

/-- The member `setCoefEx` of LaplaceParallelTriMG: the argument is unused, the body
throws. -/
def setCoefEx (self : LaplaceParallelTriMG) (_val : Field2D) :
    Outcome Unit × LaplaceParallelTriMG :=
  (.error ⟨"LaplaceParallelTriMG does not have Ex coefficient"⟩, self)

/-- The member `setCoefEz` of LaplaceParallelTriMG: the argument is unused, the body
throws. -/
def setCoefEz (self : LaplaceParallelTriMG) (_val : Field2D) :
    Outcome Unit × LaplaceParallelTriMG :=
  (.error ⟨"LaplaceParallelTriMG does not have Ez coefficient"⟩, self)

/-- The const member `getMeanIterations`: the value read, and the object as it is left. -/
def getMeanIterations (self : LaplaceParallelTriMG) : BoutReal × LaplaceParallelTriMG :=
  (self.ipt_mean_its, self)

/-- The member `resetMeanIterations`. -/
def resetMeanIterations (self : LaplaceParallelTriMG) : LaplaceParallelTriMG :=
  { self with ipt_mean_its := 0 }

end LaplaceParallelTriMG

/-- A small solver state used to evaluate the definitions on concrete input. -/
def sampleField (loc : CELL_LOC) (m : Nat) (v : BoutReal) : Field2D :=
  { location := loc, fieldmesh := some m, data := [v, v] }

/-- A concrete LaplaceParallelTriMG state on mesh 1 at CELL_CENTRE. -/
def sampleMG : LaplaceParallelTriMG :=
  { location := .CELL_CENTRE, localmesh := some 1,
    A := sampleField .CELL_CENTRE 1 0, C := sampleField .CELL_CENTRE 1 1,
    D := sampleField .CELL_CENTRE 1 1,
    first_call := [[true]], x0saved := [[[⟨0, 0⟩]]],
    rtol := 1, atol := 1, maxits := 100, max_level := 3, max_cycle := 3,
    ipt_mean_its := 7, ncalls := 2, new_method := false, use_previous_timestep := true,
    store_coefficients := false, nmode := 1, index_in := 0, index_out := 0,
    proc_in := 0, proc_out := 0 }

/-! ## BoundaryOp -/

/-- A vector field: three component fields and the tags of the vector itself. Vector2D
has Field2D components, Vector3D has Field3D components. -/
structure VectorOf (F : Type) where
  x : F
  y : F
  z : F
  covariant : Bool
  location : CELL_LOC
  deriving DecidableEq

/-- The class `Vector2D`. -/
abbrev Vector2D := VectorOf Field2D

/-- The class `Vector3D`. -/
abbrev Vector3D := VectorOf Field3D

/-- A `BoundaryOp` object. The scalar overloads `apply(Field2D&, BoutReal t = 0.)` and
`apply(Field3D&, BoutReal t = 0.)` are virtual and their base implementation forwards to
`applyTemplate`, whose body is outside the sources: they are taken as parameters. A call
receives the field and the time, may read and write the state `σ` (the members of the
operation and whatever else it reaches), and leaves an outcome, the field and the state. -/
structure BoundaryOp (σ : Type) where
  bndry : Pointer
  apply_to_ddt : Bool
  gen : Pointer
  apply_Field2D : Field2D → BoutReal → σ → Outcome Unit × Field2D × σ
  apply_Field3D : Field3D → BoutReal → σ → Outcome Unit × Field3D × σ

namespace BoundaryOp

/-- The virtual member `clone` of the base class: `ASSERT1(false); return nullptr;`. -/
def clone (CHECKLEVEL : Nat) (_region : Pointer) (_args : List String) : Outcome Pointer :=
  match ASSERT1 CHECKLEVEL false with
  | .error e => .error e
  | .ok () => .ok nullptr

/-- The member `apply(Vector2D &f)`: `apply(f.x); apply(f.y); apply(f.z);`, each call with
the default time `0.`. An exception thrown by one call ends the function there. -/
def apply_Vector2D {σ : Type} (op : BoundaryOp σ) (f : Vector2D) (s : σ) :
    Outcome Unit × Vector2D × σ :=
  match op.apply_Field2D f.x 0 s with
  | (.error e, x1, s1) => (.error e, { f with x := x1 }, s1)
  | (.ok (), x1, s1) =>
    match op.apply_Field2D f.y 0 s1 with
    | (.error e, y1, s2) => (.error e, { f with x := x1, y := y1 }, s2)
    | (.ok (), y1, s2) =>
      match op.apply_Field2D f.z 0 s2 with
      | (r, z1, s3) => (r, { f with x := x1, y := y1, z := z1 }, s3)

/-- The member `apply(Vector3D &f)`: `apply(f.x); apply(f.y); apply(f.z);`, each call with
the default time `0.`. An exception thrown by one call ends the function there. -/
def apply_Vector3D {σ : Type} (op : BoundaryOp σ) (f : Vector3D) (s : σ) :
    Outcome Unit × Vector3D × σ :=
  match op.apply_Field3D f.x 0 s with
  | (.error e, x1, s1) => (.error e, { f with x := x1 }, s1)
  | (.ok (), x1, s1) =>
    match op.apply_Field3D f.y 0 s1 with
    | (.error e, y1, s2) => (.error e, { f with x := x1, y := y1 }, s2)
    | (.ok (), y1, s2) =>
      match op.apply_Field3D f.z 0 s2 with
      | (r, z1, s3) => (r, { f with x := x1, y := y1, z := z1 }, s3)

end BoundaryOp

/-! ### The reference reading of the vector overloads -/

/-- The three components of a vector. -/
inductive Component where
  | x
  | y
  | z
  deriving DecidableEq

/-- Read one component of a vector. -/
def VectorOf.get {F : Type} (f : VectorOf F) : Component → F
  | .x => f.x
  | .y => f.y
  | .z => f.z

/-- Replace one component of a vector, leaving all else as it is. -/
def VectorOf.set {F : Type} (f : VectorOf F) (c : Component) (v : F) : VectorOf F :=
  match c with
  | .x => { f with x := v }
  | .y => { f with y := v }
  | .z => { f with z := v }

/-- Reference semantics: apply one scalar operation at time `t` to the listed components,
one after the other, each on the vector as the earlier calls left it, stopping at the
first call that throws. -/
def applyComponents {F σ : Type} (scalar : F → BoutReal → σ → Outcome Unit × F × σ)
    (t : BoutReal) : List Component → VectorOf F → σ → Outcome Unit × VectorOf F × σ
  | [], f, s => (.ok (), f, s)
  | c :: cs, f, s =>
    match scalar (f.get c) t s with
    | (.error e, v, s1) => (.error e, f.set c v, s1)
    | (.ok (), v, s1) => applyComponents scalar t cs (f.set c v) s1

/-- One recorded call of a scalar overload: the field it received and the time. -/
inductive ApplyCall where
  | field2D (f : Field2D) (t : BoutReal)
  | field3D (f : Field3D) (t : BoutReal)
  deriving DecidableEq

/-- The same operation, recording each call of a scalar overload (argument and time, in
call order) in a log kept next to the state, and otherwise behaving as `op`. -/
def BoundaryOp.logged {σ : Type} (op : BoundaryOp σ) : BoundaryOp (σ × List ApplyCall) :=
  { bndry := op.bndry, apply_to_ddt := op.apply_to_ddt, gen := op.gen,
    apply_Field2D := fun f t s =>
      match op.apply_Field2D f t s.1 with
      | (r, f1, s1) => (r, f1, (s1, s.2 ++ [ApplyCall.field2D f t])),
    apply_Field3D := fun f t s =>
      match op.apply_Field3D f t s.1 with
      | (r, f1, s1) => (r, f1, (s1, s.2 ++ [ApplyCall.field3D f t])) }

/-- A concrete boundary operation for evaluation: it counts its calls in the state, sets
the first value of the field to the time, and throws on a field with no values. -/
def sampleOp : BoundaryOp Nat :=
  { bndry := some 4, apply_to_ddt := false, gen := nullptr,
    apply_Field2D := fun f t n =>
      match f.data with
      | [] => (.error ⟨"empty field"⟩, f, n + 1)
      | _ :: vs => (.ok (), { f with data := t :: vs }, n + 1),
    apply_Field3D := fun f t n =>
      match f.data with
      | [] => (.error ⟨"empty field"⟩, f, n + 1)
      | _ :: vs => (.ok (), { f with data := t :: vs }, n + 1) }

/-- A concrete Vector2D. -/
def sampleVector2D : Vector2D :=
  { x := sampleField .CELL_CENTRE 1 5, y := sampleField .CELL_CENTRE 1 6,
    z := sampleField .CELL_CENTRE 1 7, covariant := true, location := .CELL_CENTRE }

/-- A concrete Vector3D. -/
def sampleVector3D : Vector3D :=
  { x := ⟨.CELL_CENTRE, some 1, [5]⟩, y := ⟨.CELL_CENTRE, some 1, [6]⟩,
    z := ⟨.CELL_CENTRE, some 1, [7]⟩, covariant := false, location := .CELL_XLOW }

/-! ## The convergence monitor and the multigrid driver

The bodies of `solve`, `check_diagonal_dominance`, `get_errors` and of the relaxation and
coarsening members are in `parallel_tri_multigrid.cxx`, which is outside the sources; the
header only declares them. What follows is modelled from the specification. -/

/-- Modelled from the spec: the TridiagonalSystem of one (mode, slice) pair, missing from
the sources: the sub-diagonal, diagonal and super-diagonal coefficient sequences and the
right-hand side, over the local radial extent. -/
structure TridiagonalSystem where
  avec : List dcomplex
  bvec : List dcomplex
  cvec : List dcomplex
  rvec : List dcomplex
  deriving DecidableEq

/-- Modelled from the spec: the numerical kernels of the solver, whose bodies are missing
from the sources, taken as parameters: the complex modulus, the assembly of the system of
one mode from the coefficients `A, C, D` and the right-hand side, the uncoupled local
solve that gives the approximate initial guess, the relaxation sweeps of one cycle, the
coarsen / recurse / refine / update-solution half of one cycle, the relative and absolute
residual norms, and the transform of the per-mode solutions back to a FieldPerp. -/
structure Kernels where
  abs : dcomplex → BoutReal
  tridagMatrix : Field2D → Field2D → Field2D → FieldPerp → Nat → TridiagonalSystem
  local_solve : TridiagonalSystem → List dcomplex
  relax : Bool → Int → TridiagonalSystem → List dcomplex → List dcomplex
  coarse_correct : Int → Int → TridiagonalSystem → List dcomplex → List dcomplex
  error_rel : TridiagonalSystem → List dcomplex → BoutReal
  error_abs : TridiagonalSystem → List dcomplex → BoutReal
  back_transform : FieldPerp → List (List dcomplex) → FieldPerp

/-- Modelled from the spec: the per-row condition `|b| ≥ |a| + |c|` of the diagonal
dominance check (§4.4, glossary), at row `i` of the local system; the body of
`check_diagonal_dominance` is missing from the sources. -/
def rowDominant (abs : dcomplex → BoutReal) (a b c : List dcomplex) (i : Nat) : Bool :=
  decide (abs (b.getD i ⟨0, 0⟩) ≥ abs (a.getD i ⟨0, 0⟩) + abs (c.getD i ⟨0, 0⟩))

/-- Modelled from the spec: the scan of the diagonal dominance check over `n` consecutive
local rows from row `i` on, ending at the first row that violates the condition; the body
of `check_diagonal_dominance` is missing from the sources. -/
def firstNonDominantRow (abs : dcomplex → BoutReal) (a b c : List dcomplex) :
    Nat → Nat → Option Nat
  | 0, _ => none
  | n + 1, i =>
    if rowDominant abs a b c i then firstNonDominantRow abs a b c n (i + 1) else some i

/-- Modelled from the spec: `check_diagonal_dominance(a, b, c, ncx, jy, kz)`, whose body is
missing from the sources: the local system is accepted when the scan of its `ncx` rows
finds no violating row. The indices `jy`, `kz` only label diagnostics. -/
def check_diagonal_dominance (abs : dcomplex → BoutReal) (a b c : List dcomplex)
    (ncx : Nat) (_jy _kz : Nat) : Bool :=
  (firstNonDominantRow abs a b c ncx 0).isNone

/-- Modelled from the spec: what the MultigridDriver (§4.5), whose code is missing from
the sources, leaves for one mode: the solution, whether convergence was declared, and the
number of completed cycles. -/
structure ModeResult where
  soln : List dcomplex
  converged : Bool
  cycles : Nat
  deriving DecidableEq

namespace LaplaceParallelTriMG

/-- Modelled from the spec: the convergence test of the ConvergenceMonitor (§4.4), missing
from the sources: relative residual `< rtol` OR absolute residual `< atol`. -/
def meetsTolerance (k : Kernels) (self : LaplaceParallelTriMG) (sys : TridiagonalSystem)
    (x : List dcomplex) : Bool :=
  decide (k.error_rel sys x < self.rtol) || decide (k.error_abs sys x < self.atol)

/-- Modelled from the spec: the state machine of the MultigridDriver for one mode and
slice (§4.5), missing from the sources: `Relax → ComputeResidual → (Converged | Coarsen →
recurse → Refine → UpdateSolution) → Relax …`, terminal on Converged or on reaching
`maxits` cycles. `remaining` counts the cycles still allowed, `count` those completed. -/
def driver (k : Kernels) (self : LaplaceParallelTriMG) (sys : TridiagonalSystem) :
    Nat → List dcomplex → Nat → ModeResult
  | 0, x, count =>
    let x1 := k.relax self.new_method self.max_cycle sys x
    if meetsTolerance k self sys x1 then ⟨x1, true, count⟩ else ⟨x1, false, count⟩
  | remaining + 1, x, count =>
    let x1 := k.relax self.new_method self.max_cycle sys x
    if meetsTolerance k self sys x1 then ⟨x1, true, count⟩
    else driver k self sys remaining
      (k.coarse_correct self.max_level self.max_cycle sys x1) (count + 1)

/-- Modelled from the spec: the initial guess of one mode (§4.4, §9 and the comment on
`use_previous_timestep`), missing from the sources: the first call on a point always uses
the approximate uncoupled solution; later calls use the saved previous solution when
`use_previous_timestep` is set, and otherwise the approximate solution when the local
system is diagonally dominant and the zero guess when it is not. -/
def initial_guess (k : Kernels) (self : LaplaceParallelTriMG) (jy kz : Nat)
    (sys : TridiagonalSystem) : List dcomplex :=
  if (self.first_call.getD jy []).getD kz true then k.local_solve sys
  else if self.use_previous_timestep then (self.x0saved.getD jy []).getD kz []
  else if check_diagonal_dominance k.abs sys.avec sys.bvec sys.cvec sys.bvec.length jy kz
  then k.local_solve sys
  else List.replicate sys.bvec.length ⟨0, 0⟩

/-- Modelled from the spec: the part of `solve` for one mode `kz` of the slice of `b`
(§4.5), missing from the sources: the system of the mode is assembled from the current
coefficients and run through the driver from the initial guess, with `maxits` cycles
allowed. -/
def solveMode (k : Kernels) (self : LaplaceParallelTriMG) (b : FieldPerp) (kz : Nat) :
    ModeResult :=
  driver k self (k.tridagMatrix self.A self.C self.D b kz) self.maxits.toNat
    (initial_guess k self b.yindex.toNat kz (k.tridagMatrix self.A self.C self.D b kz)) 0

end LaplaceParallelTriMG

/-- Modelled from the spec: what `solve`, whose body is missing from the sources, hands to
its caller (§4.5, §7): the best available solution and the indication whether every mode
converged. -/
structure SolveResult where
  solution : FieldPerp
  converged : Bool
  deriving DecidableEq

namespace LaplaceParallelTriMG

/-- Modelled from the spec: `solve(b)` (§4.5, §6), whose body is missing from the sources:
every mode of the slice is run through the driver independently; afterwards the first-call
flags of the slice are cleared, the solutions are saved for the next timestep, the call
counter is advanced and the running mean of the cycle count is updated. -/
def solve (k : Kernels) (self : LaplaceParallelTriMG) (b : FieldPerp) :
    SolveResult × LaplaceParallelTriMG :=
  let results := (List.range self.nmode.toNat).map (solveMode k self b)
  let count : Nat := (results.map ModeResult.cycles).foldl max 0
  (⟨k.back_transform b (results.map ModeResult.soln), results.all ModeResult.converged⟩,
   { self with
     first_call := self.first_call.set b.yindex.toNat (results.map fun _ => false),
     x0saved := self.x0saved.set b.yindex.toNat (results.map ModeResult.soln),
     ncalls := self.ncalls + 1,
     ipt_mean_its :=
       (self.ipt_mean_its * (self.ncalls : ℚ) + (count : ℚ)) / ((self.ncalls : ℚ) + 1) })

/-- Modelled from the spec: the iterate of the driver (missing from the sources) at the
start of cycle `n`, that is the initial guess after `n` full cycles (relaxation, then
coarse correction). -/
def iterate (k : Kernels) (self : LaplaceParallelTriMG) (sys : TridiagonalSystem)
    (x : List dcomplex) : Nat → List dcomplex
  | 0 => x
  | n + 1 => iterate k self sys
      (k.coarse_correct self.max_level self.max_cycle sys
        (k.relax self.new_method self.max_cycle sys x)) n

/-- Modelled from the spec: the relaxed iterate whose residual the driver (missing from the
sources) tests in cycle `n`. -/
def relaxed (k : Kernels) (self : LaplaceParallelTriMG) (sys : TridiagonalSystem)
    (x : List dcomplex) (n : Nat) : List dcomplex :=
  k.relax self.new_method self.max_cycle sys (iterate k self sys x n)

end LaplaceParallelTriMG

/-- Concrete kernels for evaluation: the modulus is the larger of the absolute values of
the two parts, a system has the one row `(1, 4, 1 | 8)`, relaxation leaves the iterate, the
coarse correction appends an entry, and both residual norms are 1 until the iterate has
three entries and 0 from then on. -/
def sampleKernels : Kernels :=
  { abs := fun z => max (max z.re (-z.re)) (max z.im (-z.im)),
    tridagMatrix := fun _ _ _ _ _ => ⟨[⟨1, 0⟩], [⟨4, 0⟩], [⟨1, 0⟩], [⟨8, 0⟩]⟩,
    local_solve := fun _ => [],
    relax := fun _ _ _ x => x,
    coarse_correct := fun _ _ _ x => ⟨0, 0⟩ :: x,
    error_rel := fun _ x => if 3 ≤ x.length then 0 else 1,
    error_abs := fun _ x => if 3 ≤ x.length then 0 else 1,
    back_transform := fun b xs => { b with data := xs.map fun x => (x.length : ℚ) } }

/-- The concrete solver state with the cycle cap lowered to 2. -/
def sampleMGcapped : LaplaceParallelTriMG := { sampleMG with maxits := 2 }

/-- A right-hand side on slice 0. -/
def sampleRhs : FieldPerp :=
  { location := .CELL_CENTRE, fieldmesh := some 1, yindex := 0, data := [8] }

/-! ## Lemmas on the assertion -/

theorem ASSERT1_of_true (CHECKLEVEL : Nat) : ASSERT1 CHECKLEVEL true = .ok () := by
  unfold ASSERT1
  split <;> rfl

theorem ASSERT1_of_false {CHECKLEVEL : Nat} (h : 1 ≤ CHECKLEVEL) :
    ASSERT1 CHECKLEVEL false = .error ⟨"Assertion failed"⟩ := by
  unfold ASSERT1
  rw [if_pos h]
  rfl

theorem ASSERT1_unchecked (condition : Bool) : ASSERT1 0 condition = .ok () := by
  rfl

namespace LaplaceParallelTriMG

theorem setCoefA_of_match (CHECKLEVEL : Nat) (s : LaplaceParallelTriMG) (val : Field2D)
    (hloc : val.getLocation = s.location) (hmesh : s.localmesh = val.getMesh) :
    s.setCoefA CHECKLEVEL val = (.ok (), { s with A := val }) := by
  simp [setCoefA, hloc, hmesh, ASSERT1_of_true]

theorem setCoefC_of_match (CHECKLEVEL : Nat) (s : LaplaceParallelTriMG) (val : Field2D)
    (hloc : val.getLocation = s.location) (hmesh : s.localmesh = val.getMesh) :
    s.setCoefC CHECKLEVEL val = (.ok (), { s with C := val }) := by
  simp [setCoefC, hloc, hmesh, ASSERT1_of_true]

theorem setCoefD_of_match (CHECKLEVEL : Nat) (s : LaplaceParallelTriMG) (val : Field2D)
    (hloc : val.getLocation = s.location) (hmesh : s.localmesh = val.getMesh) :
    s.setCoefD CHECKLEVEL val = (.ok (), { s with D := val }) := by
  simp [setCoefD, hloc, hmesh, ASSERT1_of_true]

/-- With checks enabled, a failed first or second assertion throws and leaves the state. -/
theorem assert_pair_mismatch {CHECKLEVEL : Nat} (h : 1 ≤ CHECKLEVEL) (c1 c2 : Bool)
    (hbad : c1 = false ∨ c2 = false) (s s1 : LaplaceParallelTriMG) :
    (match ASSERT1 CHECKLEVEL c1 with
      | .error e => ((.error e : Outcome Unit), s)
      | .ok () =>
        match ASSERT1 CHECKLEVEL c2 with
        | .error e => (.error e, s)
        | .ok () => (.ok (), s1)) = (.error ⟨"Assertion failed"⟩, s) := by
  cases c1
  · rw [ASSERT1_of_false h]
  · rw [ASSERT1_of_true]
    cases c2
    · simp only [ASSERT1_of_false h]
    · simp at hbad

end LaplaceParallelTriMG

/-! ## Lemmas on the driver -/

namespace LaplaceParallelTriMG

theorem driver_resetMeanIterations (k : Kernels) (s : LaplaceParallelTriMG)
    (sys : TridiagonalSystem) (n : Nat) (x : List dcomplex) (c : Nat) :
    driver k s.resetMeanIterations sys n x c = driver k s sys n x c := by
  induction n generalizing x c with
  | zero => rfl
  | succ n ih =>
    simp only [driver]
    rw [ih]
    rfl

theorem relaxed_succ (k : Kernels) (s : LaplaceParallelTriMG) (sys : TridiagonalSystem)
    (x : List dcomplex) (n : Nat) :
    relaxed k s sys x (n + 1)
      = relaxed k s sys (k.coarse_correct s.max_level s.max_cycle sys
          (k.relax s.new_method s.max_cycle sys x)) n := by
  rfl

/-- While no tested iterate meets the tolerance, the driver uses up all its cycles. -/
theorem driver_of_never_meets (k : Kernels) (s : LaplaceParallelTriMG)
    (sys : TridiagonalSystem) (n : Nat) (x : List dcomplex) (c : Nat)
    (h : ∀ j, j ≤ n → meetsTolerance k s sys (relaxed k s sys x j) = false) :
    driver k s sys n x c = ⟨relaxed k s sys x n, false, c + n⟩ := by
  induction n generalizing x c with
  | zero =>
    have h0 : meetsTolerance k s sys (k.relax s.new_method s.max_cycle sys x) = false :=
      h 0 (Nat.le_refl 0)
    simp only [driver, h0]
    rfl
  | succ n ih =>
    have h0 : meetsTolerance k s sys (k.relax s.new_method s.max_cycle sys x) = false :=
      h 0 (Nat.zero_le _)
    simp only [driver, h0]
    rw [ih]
    · rw [relaxed_succ, Nat.add_assoc, Nat.add_comm 1 n]
      simp
    · intro j hj
      rw [← relaxed_succ]
      exact h (j + 1) (by omega)

/-- The flag the driver returns is the convergence test on the solution it returns. -/
theorem driver_converged_eq (k : Kernels) (s : LaplaceParallelTriMG)
    (sys : TridiagonalSystem) (n : Nat) (x : List dcomplex) (c : Nat) :
    (driver k s sys n x c).converged = meetsTolerance k s sys (driver k s sys n x c).soln := by
  induction n generalizing x c with
  | zero =>
    simp only [driver]
    cases h : meetsTolerance k s sys (k.relax s.new_method s.max_cycle sys x) <;> simp [h]
  | succ n ih =>
    simp only [driver]
    cases h : meetsTolerance k s sys (k.relax s.new_method s.max_cycle sys x)
    · simp only [Bool.false_eq_true, if_false]
      exact ih _ _
    · simp [h]

theorem meetsTolerance_iff (k : Kernels) (s : LaplaceParallelTriMG) (sys : TridiagonalSystem)
    (x : List dcomplex) :
    meetsTolerance k s sys x = true ↔ k.error_rel sys x < s.rtol ∨ k.error_abs sys x < s.atol := by
  simp [meetsTolerance]

theorem solve_converged_eq (k : Kernels) (s : LaplaceParallelTriMG) (b : FieldPerp) :
    (s.solve k b).1.converged
      = (List.range s.nmode.toNat).all fun kz => (solveMode k s b kz).converged := by
  simp only [solve]
  induction List.range s.nmode.toNat with
  | nil => rfl
  | cons a l ih => simp only [List.map_cons, List.all_cons, ih]

theorem solve_solution_eq (k : Kernels) (s : LaplaceParallelTriMG) (b : FieldPerp) :
    (s.solve k b).1.solution
      = k.back_transform b ((List.range s.nmode.toNat).map fun kz => (solveMode k s b kz).soln) := by
  simp only [solve]
  rw [List.map_map]
  rfl

theorem solveMode_resetMeanIterations (k : Kernels) (s : LaplaceParallelTriMG)
    (b : FieldPerp) (kz : Nat) :
    solveMode k s.resetMeanIterations b kz = solveMode k s b kz := by
  unfold solveMode
  rw [driver_resetMeanIterations]
  rfl

end LaplaceParallelTriMG

/-! ## Lemmas on the diagonal dominance scan -/

theorem rowDominant_iff (abs : dcomplex → BoutReal) (a b c : List dcomplex) (i : Nat) :
    rowDominant abs a b c i = true ↔
      abs (b.getD i ⟨0, 0⟩) ≥ abs (a.getD i ⟨0, 0⟩) + abs (c.getD i ⟨0, 0⟩) := by
  simp [rowDominant]

theorem firstNonDominantRow_eq_none_iff (abs : dcomplex → BoutReal) (a b c : List dcomplex)
    (n i : Nat) :
    firstNonDominantRow abs a b c n i = none ↔
      ∀ j, i ≤ j → j < i + n → rowDominant abs a b c j = true := by
  induction n generalizing i with
  | zero =>
    simp only [firstNonDominantRow, true_iff]
    intro j h1 h2
    omega
  | succ n ih =>
    simp only [firstNonDominantRow]
    by_cases hd : rowDominant abs a b c i = true
    · rw [if_pos hd, ih]
      constructor
      · intro h j h1 h2
        rcases Nat.eq_or_lt_of_le h1 with h3 | h3
        · rw [← h3]; exact hd
        · exact h j h3 (by omega)
      · intro h j h1 h2
        exact h j (by omega) (by omega)
    · rw [if_neg hd]
      simp only [false_iff, reduceCtorEq]
      intro h
      exact hd (h i (Nat.le_refl i) (by omega))

theorem firstNonDominantRow_eq_some_iff (abs : dcomplex → BoutReal) (a b c : List dcomplex)
    (n i r : Nat) :
    firstNonDominantRow abs a b c n i = some r ↔
      i ≤ r ∧ r < i + n ∧ rowDominant abs a b c r = false ∧
        ∀ j, i ≤ j → j < r → rowDominant abs a b c j = true := by
  induction n generalizing i with
  | zero =>
    simp only [firstNonDominantRow, reduceCtorEq, false_iff]
    rintro ⟨h1, h2, -⟩
    omega
  | succ n ih =>
    simp only [firstNonDominantRow]
    by_cases hd : rowDominant abs a b c i = true
    · rw [if_pos hd, ih]
      constructor
      · rintro ⟨h1, h2, h3, h4⟩
        refine ⟨by omega, by omega, h3, ?_⟩
        intro j hj1 hj2
        rcases Nat.eq_or_lt_of_le hj1 with h5 | h5
        · rw [← h5]; exact hd
        · exact h4 j h5 hj2
      · rintro ⟨h1, h2, h3, h4⟩
        have hne : i ≠ r := by
          intro h
          rw [h, h3] at hd
          exact Bool.false_ne_true hd
        exact ⟨by omega, by omega, h3, fun j hj1 hj2 => h4 j (by omega) hj2⟩
    · rw [if_neg hd]
      have hf : rowDominant abs a b c i = false := by simpa using hd
      constructor
      · intro h
        have hir : i = r := Option.some.inj h
        subst hir
        exact ⟨Nat.le_refl _, by omega, hf, fun j h1 h2 => by omega⟩
      · rintro ⟨h1, h2, h3, h4⟩
        rcases Nat.eq_or_lt_of_le h1 with h5 | h5
        · rw [h5]
        · exact absurd (h4 i (Nat.le_refl i) h5) hd

/-! ## Lemmas on the vector overloads of apply -/

namespace BoundaryOp

theorem apply_Vector2D_throw_x {σ : Type} {op : BoundaryOp σ} {f : Vector2D} {s s1 : σ}
    {e : BoutException} {x1 : Field2D} (h1 : op.apply_Field2D f.x 0 s = (.error e, x1, s1)) :
    op.apply_Vector2D f s = (.error e, { f with x := x1 }, s1) := by
  simp only [apply_Vector2D, h1]

theorem apply_Vector2D_throw_y {σ : Type} {op : BoundaryOp σ} {f : Vector2D} {s s1 s2 : σ}
    {e : BoutException} {x1 y1 : Field2D} (h1 : op.apply_Field2D f.x 0 s = (.ok (), x1, s1))
    (h2 : op.apply_Field2D f.y 0 s1 = (.error e, y1, s2)) :
    op.apply_Vector2D f s = (.error e, { f with x := x1, y := y1 }, s2) := by
  simp only [apply_Vector2D, h1, h2]

theorem apply_Vector2D_reach_z {σ : Type} {op : BoundaryOp σ} {f : Vector2D}
    {s s1 s2 s3 : σ} {r : Outcome Unit} {x1 y1 z1 : Field2D}
    (h1 : op.apply_Field2D f.x 0 s = (.ok (), x1, s1))
    (h2 : op.apply_Field2D f.y 0 s1 = (.ok (), y1, s2))
    (h3 : op.apply_Field2D f.z 0 s2 = (r, z1, s3)) :
    op.apply_Vector2D f s = (r, { f with x := x1, y := y1, z := z1 }, s3) := by
  simp only [apply_Vector2D, h1, h2, h3]

theorem logged_apply_Field2D {σ : Type} {op : BoundaryOp σ} {f f1 : Field2D} {t : BoutReal}
    {s s1 : σ} {r : Outcome Unit} (log : List ApplyCall)
    (h : op.apply_Field2D f t s = (r, f1, s1)) :
    op.logged.apply_Field2D f t (s, log) = (r, f1, (s1, log ++ [ApplyCall.field2D f t])) := by
  simp only [logged, h]

theorem apply_Vector3D_throw_x {σ : Type} {op : BoundaryOp σ} {f : Vector3D} {s s1 : σ}
    {e : BoutException} {x1 : Field3D} (h1 : op.apply_Field3D f.x 0 s = (.error e, x1, s1)) :
    op.apply_Vector3D f s = (.error e, { f with x := x1 }, s1) := by
  simp only [apply_Vector3D, h1]

theorem apply_Vector3D_throw_y {σ : Type} {op : BoundaryOp σ} {f : Vector3D} {s s1 s2 : σ}
    {e : BoutException} {x1 y1 : Field3D} (h1 : op.apply_Field3D f.x 0 s = (.ok (), x1, s1))
    (h2 : op.apply_Field3D f.y 0 s1 = (.error e, y1, s2)) :
    op.apply_Vector3D f s = (.error e, { f with x := x1, y := y1 }, s2) := by
  simp only [apply_Vector3D, h1, h2]

theorem apply_Vector3D_reach_z {σ : Type} {op : BoundaryOp σ} {f : Vector3D}
    {s s1 s2 s3 : σ} {r : Outcome Unit} {x1 y1 z1 : Field3D}
    (h1 : op.apply_Field3D f.x 0 s = (.ok (), x1, s1))
    (h2 : op.apply_Field3D f.y 0 s1 = (.ok (), y1, s2))
    (h3 : op.apply_Field3D f.z 0 s2 = (r, z1, s3)) :
    op.apply_Vector3D f s = (r, { f with x := x1, y := y1, z := z1 }, s3) := by
  simp only [apply_Vector3D, h1, h2, h3]

theorem logged_apply_Field3D {σ : Type} {op : BoundaryOp σ} {f f1 : Field3D} {t : BoutReal}
    {s s1 : σ} {r : Outcome Unit} (log : List ApplyCall)
    (h : op.apply_Field3D f t s = (r, f1, s1)) :
    op.logged.apply_Field3D f t (s, log) = (r, f1, (s1, log ++ [ApplyCall.field3D f t])) := by
  simp only [logged, h]

end BoundaryOp

/-! ## Theorems on the sources -/

/-- C1: for both solver variants and every Field2D argument, setCoefEx and setCoefEz end
in a BoutException (never in a normal return), and the whole solver state, the stored
A, C and D included, is after the failed call what it was before. -/
theorem setCoefEx_setCoefEz_always_throw (tri : LaplaceParallelTri)
    (mg : LaplaceParallelTriMG) (val : Field2D) :
    ((tri.setCoefEx val).1 = .error ⟨"LaplaceParallelTri does not have Ex coefficient"⟩
      ∧ (tri.setCoefEx val).1 ≠ .ok () ∧ (tri.setCoefEx val).2 = tri) ∧
    ((tri.setCoefEz val).1 = .error ⟨"LaplaceParallelTri does not have Ez coefficient"⟩
      ∧ (tri.setCoefEz val).1 ≠ .ok () ∧ (tri.setCoefEz val).2 = tri) ∧
    ((mg.setCoefEx val).1 = .error ⟨"LaplaceParallelTriMG does not have Ex coefficient"⟩
      ∧ (mg.setCoefEx val).1 ≠ .ok () ∧ (mg.setCoefEx val).2 = mg) ∧
    ((mg.setCoefEz val).1 = .error ⟨"LaplaceParallelTriMG does not have Ez coefficient"⟩
      ∧ (mg.setCoefEz val).1 ≠ .ok () ∧ (mg.setCoefEz val).2 = mg) := by
  refine ⟨⟨rfl, ?_, rfl⟩, ⟨rfl, ?_, rfl⟩, ⟨rfl, ?_, rfl⟩, ⟨rfl, ?_, rfl⟩⟩ <;>
    simp [LaplaceParallelTri.setCoefEx, LaplaceParallelTri.setCoefEz,
      LaplaceParallelTriMG.setCoefEx, LaplaceParallelTriMG.setCoefEz]

/-- C2, counterexample: in a build at check level 0 the assertions of setCoefA expand to
nothing; a Field2D at CELL_XLOW given to a solver configured at CELL_CENTRE is then
accepted, the call returns normally and the stored A is replaced by the argument. -/
theorem setCoefA_mismatch_stored_unchecked :
    (sampleField .CELL_XLOW 1 5).getLocation ≠ sampleMG.location ∧
    (sampleMG.setCoefA 0 (sampleField .CELL_XLOW 1 5)).1 = .ok () ∧
    (sampleMG.setCoefA 0 (sampleField .CELL_XLOW 1 5)).2.A = sampleField .CELL_XLOW 1 5 ∧
    (sampleMG.setCoefA 0 (sampleField .CELL_XLOW 1 5)).2.A ≠ sampleMG.A := by
  refine ⟨by decide, rfl, rfl, by decide⟩

/-- C2, amended: in a build at check level 1 or above, for every Field2D whose location
differs from the solver's location or whose mesh differs from the solver's localmesh, each
of setCoefA, setCoefC and setCoefD of LaplaceParallelTriMG throws the assertion's
BoutException and leaves the whole state, the coefficient included, as it was. -/
theorem setCoef_mismatch_throws_checked (CHECKLEVEL : Nat) (s : LaplaceParallelTriMG)
    (val : Field2D) (hcheck : 1 ≤ CHECKLEVEL)
    (hbad : val.getLocation ≠ s.location ∨ s.localmesh ≠ val.getMesh) :
    s.setCoefA CHECKLEVEL val = (.error ⟨"Assertion failed"⟩, s) ∧
    s.setCoefC CHECKLEVEL val = (.error ⟨"Assertion failed"⟩, s) ∧
    s.setCoefD CHECKLEVEL val = (.error ⟨"Assertion failed"⟩, s) := by
  have hb : (val.getLocation == s.location) = false ∨ (s.localmesh == val.getMesh) = false := by
    rcases hbad with h | h
    · exact Or.inl (beq_eq_false_iff_ne.mpr h)
    · exact Or.inr (beq_eq_false_iff_ne.mpr h)
  exact ⟨LaplaceParallelTriMG.assert_pair_mismatch hcheck _ _ hb s _,
    LaplaceParallelTriMG.assert_pair_mismatch hcheck _ _ hb s _,
    LaplaceParallelTriMG.assert_pair_mismatch hcheck _ _ hb s _⟩

theorem setCoef_mismatch_throws_checked_witness :
    (sampleMG.setCoefA 1 (sampleField .CELL_XLOW 1 5) = (.error ⟨"Assertion failed"⟩, sampleMG) ∧
     sampleMG.setCoefC 1 (sampleField .CELL_XLOW 1 5) = (.error ⟨"Assertion failed"⟩, sampleMG) ∧
     sampleMG.setCoefD 1 (sampleField .CELL_XLOW 1 5) = (.error ⟨"Assertion failed"⟩, sampleMG)) ∧
    (sampleMG.setCoefA 2 (sampleField .CELL_CENTRE 9 5) = (.error ⟨"Assertion failed"⟩, sampleMG) ∧
     sampleMG.setCoefC 2 (sampleField .CELL_CENTRE 9 5) = (.error ⟨"Assertion failed"⟩, sampleMG) ∧
     sampleMG.setCoefD 2 (sampleField .CELL_CENTRE 9 5) = (.error ⟨"Assertion failed"⟩, sampleMG)) :=
  ⟨setCoef_mismatch_throws_checked 1 sampleMG (sampleField .CELL_XLOW 1 5) (by decide)
      (Or.inl (by decide)),
   setCoef_mismatch_throws_checked 2 sampleMG (sampleField .CELL_CENTRE 9 5) (by decide)
      (Or.inr (by decide))⟩

/-- C4: in every state of a LaplaceParallelTriMG, getMeanIterations right after
resetMeanIterations returns exactly 0, and getMeanIterations returns the current value of
ipt_mean_its and leaves the object as it is. -/
theorem getMeanIterations_reads_counter (s : LaplaceParallelTriMG) :
    s.resetMeanIterations.getMeanIterations.1 = 0 ∧
    s.getMeanIterations.1 = s.ipt_mean_its ∧
    s.getMeanIterations.2 = s := by
  exact ⟨rfl, rfl, rfl⟩

/-- C9: for every Field2D whose location equals the solver's location and whose mesh
equals the solver's localmesh, at every check level, each of setCoefA, setCoefC, setCoefD
of LaplaceParallelTriMG returns normally and leaves the state with that one coefficient
equal to the argument and everything else as before; calling the same setter again with
the same argument gives the same state, and the setters of two distinct coefficients give
the same result in either order. -/
theorem setCoef_match_stores (CHECKLEVEL : Nat) (s : LaplaceParallelTriMG) (v w : Field2D)
    (hvloc : v.getLocation = s.location) (hvmesh : s.localmesh = v.getMesh)
    (hwloc : w.getLocation = s.location) (hwmesh : s.localmesh = w.getMesh) :
    (s.setCoefA CHECKLEVEL v = (.ok (), { s with A := v }) ∧
     s.setCoefC CHECKLEVEL v = (.ok (), { s with C := v }) ∧
     s.setCoefD CHECKLEVEL v = (.ok (), { s with D := v })) ∧
    ((s.setCoefA CHECKLEVEL v).2.setCoefA CHECKLEVEL v = s.setCoefA CHECKLEVEL v ∧
     (s.setCoefC CHECKLEVEL v).2.setCoefC CHECKLEVEL v = s.setCoefC CHECKLEVEL v ∧
     (s.setCoefD CHECKLEVEL v).2.setCoefD CHECKLEVEL v = s.setCoefD CHECKLEVEL v) ∧
    ((s.setCoefA CHECKLEVEL v).2.setCoefC CHECKLEVEL w
        = (s.setCoefC CHECKLEVEL w).2.setCoefA CHECKLEVEL v ∧
     (s.setCoefA CHECKLEVEL v).2.setCoefD CHECKLEVEL w
        = (s.setCoefD CHECKLEVEL w).2.setCoefA CHECKLEVEL v ∧
     (s.setCoefC CHECKLEVEL v).2.setCoefD CHECKLEVEL w
        = (s.setCoefD CHECKLEVEL w).2.setCoefC CHECKLEVEL v) ∧
    ((s.setCoefA CHECKLEVEL v).2.setCoefC CHECKLEVEL w
        = (.ok (), { s with A := v, C := w })) := by
  have hA := LaplaceParallelTriMG.setCoefA_of_match CHECKLEVEL
  have hC := LaplaceParallelTriMG.setCoefC_of_match CHECKLEVEL
  have hD := LaplaceParallelTriMG.setCoefD_of_match CHECKLEVEL
  refine ⟨⟨hA s v hvloc hvmesh, hC s v hvloc hvmesh, hD s v hvloc hvmesh⟩, ⟨?_, ?_, ?_⟩,
    ⟨?_, ?_, ?_⟩, ?_⟩
  · rw [hA s v hvloc hvmesh]
    exact hA { s with A := v } v hvloc hvmesh
  · rw [hC s v hvloc hvmesh]
    exact hC { s with C := v } v hvloc hvmesh
  · rw [hD s v hvloc hvmesh]
    exact hD { s with D := v } v hvloc hvmesh
  · rw [hA s v hvloc hvmesh, hC s w hwloc hwmesh]
    exact (hC { s with A := v } w hwloc hwmesh).trans
      (hA { s with C := w } v hvloc hvmesh).symm
  · rw [hA s v hvloc hvmesh, hD s w hwloc hwmesh]
    exact (hD { s with A := v } w hwloc hwmesh).trans
      (hA { s with D := w } v hvloc hvmesh).symm
  · rw [hC s v hvloc hvmesh, hD s w hwloc hwmesh]
    exact (hD { s with C := v } w hwloc hwmesh).trans
      (hC { s with D := w } v hvloc hvmesh).symm
  · rw [hA s v hvloc hvmesh]
    exact hC { s with A := v } w hwloc hwmesh

theorem setCoef_match_stores_witness :
    (sampleMG.setCoefA 1 (sampleField .CELL_CENTRE 1 5)).2.A = sampleField .CELL_CENTRE 1 5 ∧
    ((sampleMG.setCoefA 1 (sampleField .CELL_CENTRE 1 5)).2.setCoefC 1
        (sampleField .CELL_CENTRE 1 6)).2.C = sampleField .CELL_CENTRE 1 6 :=
  have h := setCoef_match_stores 1 sampleMG (sampleField .CELL_CENTRE 1 5)
    (sampleField .CELL_CENTRE 1 6) (by decide) (by decide) (by decide) (by decide)
  ⟨by rw [h.1.1], by rw [h.2.2.2]⟩

/-- C8, counterexample: in a build at check level 0 the base-class clone does not fail: its
assertion expands to nothing and the call returns normally, with the null pointer. -/
theorem clone_returns_unchecked :
    BoundaryOp.clone 0 (some 3) ["dirichlet"] = .ok nullptr ∧
    BoundaryOp.clone 0 (some 3) ["dirichlet"] ≠ .error ⟨"Assertion failed"⟩ := by
  refine ⟨rfl, ?_⟩
  simp [BoundaryOp.clone, ASSERT1]

/-- C8, amended: for every region and every argument list the base-class clone never
returns a non-null BoundaryOp: in a build at check level 1 or above it throws the
assertion's BoutException, and in a build at check level 0 it returns the null pointer. -/
theorem clone_never_usable (CHECKLEVEL : Nat) (region : Pointer) (args : List String) :
    BoundaryOp.clone CHECKLEVEL region args
      = (if 1 ≤ CHECKLEVEL then .error ⟨"Assertion failed"⟩ else .ok nullptr) ∧
    ∀ p : Nat, BoundaryOp.clone CHECKLEVEL region args ≠ .ok (some p) := by
  by_cases h : 1 ≤ CHECKLEVEL
  · simp [BoundaryOp.clone, ASSERT1_of_false h, h]
  · have h0 : CHECKLEVEL = 0 := by omega
    subst h0
    simp [BoundaryOp.clone, ASSERT1_unchecked, nullptr]

/-- C5: resetMeanIterations changes only the running mean-iteration counter: every other
member (the base-class members, A, C, D, first_call, x0saved, rtol, atol, maxits,
max_level, max_cycle, ncalls, the method and use_previous_timestep flags and the rest) is
the same before and after, and a following solve returns the same solution and the same
convergence indication as it would have returned without the reset. -/
theorem resetMeanIterations_frame (s : LaplaceParallelTriMG) (k : Kernels) (b : FieldPerp) :
    s.resetMeanIterations = { s with ipt_mean_its := 0 } ∧
    (s.resetMeanIterations.toLaplacian = s.toLaplacian ∧
     s.resetMeanIterations.A = s.A ∧ s.resetMeanIterations.C = s.C ∧
     s.resetMeanIterations.D = s.D ∧
     s.resetMeanIterations.first_call = s.first_call ∧
     s.resetMeanIterations.x0saved = s.x0saved ∧
     s.resetMeanIterations.rtol = s.rtol ∧ s.resetMeanIterations.atol = s.atol ∧
     s.resetMeanIterations.maxits = s.maxits ∧
     s.resetMeanIterations.max_level = s.max_level ∧
     s.resetMeanIterations.max_cycle = s.max_cycle ∧
     s.resetMeanIterations.ncalls = s.ncalls ∧
     s.resetMeanIterations.new_method = s.new_method ∧
     s.resetMeanIterations.use_previous_timestep = s.use_previous_timestep ∧
     s.resetMeanIterations.store_coefficients = s.store_coefficients ∧
     s.resetMeanIterations.nmode = s.nmode ∧
     s.resetMeanIterations.index_in = s.index_in ∧
     s.resetMeanIterations.index_out = s.index_out ∧
     s.resetMeanIterations.proc_in = s.proc_in ∧
     s.resetMeanIterations.proc_out = s.proc_out) ∧
    (s.resetMeanIterations.solve k b).1 = (s.solve k b).1 ∧
    { (s.resetMeanIterations.solve k b).2 with ipt_mean_its := 0 }
      = { (s.solve k b).2 with ipt_mean_its := 0 } := by
  have hm : LaplaceParallelTriMG.solveMode k s.resetMeanIterations b
      = LaplaceParallelTriMG.solveMode k s b :=
    funext (LaplaceParallelTriMG.solveMode_resetMeanIterations k s b)
  refine ⟨rfl, ⟨rfl, rfl, rfl, rfl, rfl, rfl, rfl, rfl, rfl, rfl, rfl, rfl, rfl, rfl, rfl,
    rfl, rfl, rfl, rfl, rfl⟩, ?_, ?_⟩
  · simp only [LaplaceParallelTriMG.solve, hm]
    rfl
  · simp only [LaplaceParallelTriMG.solve, hm]
    rfl

/-- C10: for every Vector2D and every Vector3D, `apply(f)` is the scalar operation applied
at time 0 to f.x, then to f.y, then to f.z, one after the other (ending at a call that
throws); the other members of f are as before; and the record of the scalar calls made
grows by the call on f.x, the call on f.y and the call on f.z, each once and in this
order, all at time 0, unless a call threw, in which case it grows by the calls up to that
one. Recording does not change the outcome, the vector or the state. -/
theorem apply_vector_is_componentwise {σ : Type} (op : BoundaryOp σ) (f2 : Vector2D)
    (f3 : Vector3D) (s : σ) (log : List ApplyCall) :
    (op.apply_Vector2D f2 s = applyComponents op.apply_Field2D 0 [.x, .y, .z] f2 s ∧
     (op.apply_Vector2D f2 s).2.1.covariant = f2.covariant ∧
     (op.apply_Vector2D f2 s).2.1.location = f2.location ∧
     (op.logged.apply_Vector2D f2 (s, log)).1 = (op.apply_Vector2D f2 s).1 ∧
     (op.logged.apply_Vector2D f2 (s, log)).2.1 = (op.apply_Vector2D f2 s).2.1 ∧
     (op.logged.apply_Vector2D f2 (s, log)).2.2.1 = (op.apply_Vector2D f2 s).2.2 ∧
     ∃ calls, (op.logged.apply_Vector2D f2 (s, log)).2.2.2 = log ++ calls ∧
       calls <+: [.field2D f2.x 0, .field2D f2.y 0, .field2D f2.z 0] ∧
       (calls = [.field2D f2.x 0, .field2D f2.y 0, .field2D f2.z 0] ∨
        ∃ e, (op.apply_Vector2D f2 s).1 = .error e)) ∧
    (op.apply_Vector3D f3 s = applyComponents op.apply_Field3D 0 [.x, .y, .z] f3 s ∧
     (op.apply_Vector3D f3 s).2.1.covariant = f3.covariant ∧
     (op.apply_Vector3D f3 s).2.1.location = f3.location ∧
     (op.logged.apply_Vector3D f3 (s, log)).1 = (op.apply_Vector3D f3 s).1 ∧
     (op.logged.apply_Vector3D f3 (s, log)).2.1 = (op.apply_Vector3D f3 s).2.1 ∧
     (op.logged.apply_Vector3D f3 (s, log)).2.2.1 = (op.apply_Vector3D f3 s).2.2 ∧
     ∃ calls, (op.logged.apply_Vector3D f3 (s, log)).2.2.2 = log ++ calls ∧
       calls <+: [.field3D f3.x 0, .field3D f3.y 0, .field3D f3.z 0] ∧
       (calls = [.field3D f3.x 0, .field3D f3.y 0, .field3D f3.z 0] ∨
        ∃ e, (op.apply_Vector3D f3 s).1 = .error e)) := by
  constructor
  · rcases h1 : op.apply_Field2D f2.x 0 s with ⟨r1, x1, s1⟩
    rcases r1 with e1 | ⟨⟨⟩⟩
    · rw [BoundaryOp.apply_Vector2D_throw_x h1,
        BoundaryOp.apply_Vector2D_throw_x (BoundaryOp.logged_apply_Field2D log h1)]
      refine ⟨?_, rfl, rfl, rfl, rfl, rfl, [.field2D f2.x 0], rfl, ?_, Or.inr ⟨e1, rfl⟩⟩
      · simp only [applyComponents, VectorOf.get, VectorOf.set, h1]
      · exact ⟨[.field2D f2.y 0, .field2D f2.z 0], rfl⟩
    · rcases h2 : op.apply_Field2D f2.y 0 s1 with ⟨r2, y1, s2⟩
      rcases r2 with e2 | ⟨⟨⟩⟩
      · rw [BoundaryOp.apply_Vector2D_throw_y h1 h2,
          BoundaryOp.apply_Vector2D_throw_y (BoundaryOp.logged_apply_Field2D log h1)
            (BoundaryOp.logged_apply_Field2D _ h2)]
        refine ⟨?_, rfl, rfl, rfl, rfl, rfl, [.field2D f2.x 0, .field2D f2.y 0], ?_, ?_,
          Or.inr ⟨e2, rfl⟩⟩
        · simp only [applyComponents, VectorOf.get, VectorOf.set, h1, h2]
        · simp
        · exact ⟨[.field2D f2.z 0], rfl⟩
      · rcases h3 : op.apply_Field2D f2.z 0 s2 with ⟨r3, z1, s3⟩
        rw [BoundaryOp.apply_Vector2D_reach_z h1 h2 h3,
          BoundaryOp.apply_Vector2D_reach_z (BoundaryOp.logged_apply_Field2D log h1)
            (BoundaryOp.logged_apply_Field2D _ h2) (BoundaryOp.logged_apply_Field2D _ h3)]
        refine ⟨?_, rfl, rfl, rfl, rfl, rfl,
          [.field2D f2.x 0, .field2D f2.y 0, .field2D f2.z 0], ?_, ?_, Or.inl rfl⟩
        · cases r3 <;> simp only [applyComponents, VectorOf.get, VectorOf.set, h1, h2, h3]
        · simp
        · exact List.prefix_refl _
  · rcases h1 : op.apply_Field3D f3.x 0 s with ⟨r1, x1, s1⟩
    rcases r1 with e1 | ⟨⟨⟩⟩
    · rw [BoundaryOp.apply_Vector3D_throw_x h1,
        BoundaryOp.apply_Vector3D_throw_x (BoundaryOp.logged_apply_Field3D log h1)]
      refine ⟨?_, rfl, rfl, rfl, rfl, rfl, [.field3D f3.x 0], rfl, ?_, Or.inr ⟨e1, rfl⟩⟩
      · simp only [applyComponents, VectorOf.get, VectorOf.set, h1]
      · exact ⟨[.field3D f3.y 0, .field3D f3.z 0], rfl⟩
    · rcases h2 : op.apply_Field3D f3.y 0 s1 with ⟨r2, y1, s2⟩
      rcases r2 with e2 | ⟨⟨⟩⟩
      · rw [BoundaryOp.apply_Vector3D_throw_y h1 h2,
          BoundaryOp.apply_Vector3D_throw_y (BoundaryOp.logged_apply_Field3D log h1)
            (BoundaryOp.logged_apply_Field3D _ h2)]
        refine ⟨?_, rfl, rfl, rfl, rfl, rfl, [.field3D f3.x 0, .field3D f3.y 0], ?_, ?_,
          Or.inr ⟨e2, rfl⟩⟩
        · simp only [applyComponents, VectorOf.get, VectorOf.set, h1, h2]
        · simp
        · exact ⟨[.field3D f3.z 0], rfl⟩
      · rcases h3 : op.apply_Field3D f3.z 0 s2 with ⟨r3, z1, s3⟩
        rw [BoundaryOp.apply_Vector3D_reach_z h1 h2 h3,
          BoundaryOp.apply_Vector3D_reach_z (BoundaryOp.logged_apply_Field3D log h1)
            (BoundaryOp.logged_apply_Field3D _ h2) (BoundaryOp.logged_apply_Field3D _ h3)]
        refine ⟨?_, rfl, rfl, rfl, rfl, rfl,
          [.field3D f3.x 0, .field3D f3.y 0, .field3D f3.z 0], ?_, ?_, Or.inl rfl⟩
        · cases r3 <;> simp only [applyComponents, VectorOf.get, VectorOf.set, h1, h2, h3]
        · simp
        · exact List.prefix_refl _

/-! ## Theorems on the parts modelled from the specification -/

/-- C6: the diagonal dominance check accepts the local system (a, b, c) of ncx rows
exactly when `|b_i| ≥ |a_i| + |c_i|` holds in every local row i; it rejects exactly when
some row violates the inequality, and its scan then ends at the first such row: every row
before it satisfies the inequality and no later row is looked at. -/
theorem check_diagonal_dominance_iff (abs : dcomplex → BoutReal) (a b c : List dcomplex)
    (ncx jy kz : Nat) :
    (check_diagonal_dominance abs a b c ncx jy kz = true ↔
      ∀ i, i < ncx →
        abs (b.getD i ⟨0, 0⟩) ≥ abs (a.getD i ⟨0, 0⟩) + abs (c.getD i ⟨0, 0⟩)) ∧
    (check_diagonal_dominance abs a b c ncx jy kz = false ↔
      ∃ r, firstNonDominantRow abs a b c ncx 0 = some r) ∧
    (∀ r, firstNonDominantRow abs a b c ncx 0 = some r ↔
      (r < ncx ∧
       ¬ abs (b.getD r ⟨0, 0⟩) ≥ abs (a.getD r ⟨0, 0⟩) + abs (c.getD r ⟨0, 0⟩) ∧
       ∀ j, j < r →
        abs (b.getD j ⟨0, 0⟩) ≥ abs (a.getD j ⟨0, 0⟩) + abs (c.getD j ⟨0, 0⟩))) := by
  refine ⟨?_, ?_, ?_⟩
  · unfold check_diagonal_dominance
    rw [Option.isNone_iff_eq_none, firstNonDominantRow_eq_none_iff]
    constructor
    · intro h i hi
      exact (rowDominant_iff abs a b c i).mp (h i (Nat.zero_le i) (by omega))
    · intro h i _ hi
      exact (rowDominant_iff abs a b c i).mpr (h i (by omega))
  · unfold check_diagonal_dominance
    cases h : firstNonDominantRow abs a b c ncx 0 with
    | none => simp
    | some r => simp
  · intro r
    rw [firstNonDominantRow_eq_some_iff]
    constructor
    · rintro ⟨-, h2, h3, h4⟩
      refine ⟨by omega, ?_, ?_⟩
      · intro hge
        rw [(rowDominant_iff abs a b c r).mpr hge] at h3
        exact Bool.noConfusion h3
      · intro j hj
        exact (rowDominant_iff abs a b c j).mp (h4 j (Nat.zero_le j) hj)
    · rintro ⟨h1, h2, h3⟩
      refine ⟨Nat.zero_le r, by omega, ?_, ?_⟩
      · cases hrd : rowDominant abs a b c r with
        | false => rfl
        | true => exact absurd ((rowDominant_iff abs a b c r).mp hrd) h2
      · intro j _ hj
        exact (rowDominant_iff abs a b c j).mpr (h3 j hj)

/-- C3: when a mode of a solve goes through `maxits` cycles and none of the iterates whose
residual is tested meets the tolerance, the solve still returns: the driver leaves for that
mode the last relaxed iterate, flagged as not converged, after exactly `maxits` cycles; the
solve hands back the solution assembled from the solutions the driver left for the modes,
and its convergence indication is false. -/
theorem solve_nonconverged_is_reported (k : Kernels) (s : LaplaceParallelTriMG)
    (b : FieldPerp) (kz : Nat) (hkz : kz < s.nmode.toNat)
    (hnever : ∀ j, j ≤ s.maxits.toNat →
      LaplaceParallelTriMG.meetsTolerance k s (k.tridagMatrix s.A s.C s.D b kz)
        (LaplaceParallelTriMG.relaxed k s (k.tridagMatrix s.A s.C s.D b kz)
          (LaplaceParallelTriMG.initial_guess k s b.yindex.toNat kz
            (k.tridagMatrix s.A s.C s.D b kz)) j) = false) :
    LaplaceParallelTriMG.solveMode k s b kz
      = ⟨LaplaceParallelTriMG.relaxed k s (k.tridagMatrix s.A s.C s.D b kz)
          (LaplaceParallelTriMG.initial_guess k s b.yindex.toNat kz
            (k.tridagMatrix s.A s.C s.D b kz)) s.maxits.toNat, false, s.maxits.toNat⟩ ∧
    (s.solve k b).1.converged = false ∧
    (s.solve k b).1.solution
      = k.back_transform b ((List.range s.nmode.toNat).map fun i =>
          (LaplaceParallelTriMG.solveMode k s b i).soln) := by
  have hmode := LaplaceParallelTriMG.driver_of_never_meets k s _ _ _ 0 hnever
  rw [Nat.zero_add] at hmode
  refine ⟨hmode, ?_, LaplaceParallelTriMG.solve_solution_eq k s b⟩
  rw [LaplaceParallelTriMG.solve_converged_eq, List.all_eq_false]
  refine ⟨kz, List.mem_range.mpr hkz, ?_⟩
  have hc : (LaplaceParallelTriMG.solveMode k s b kz).converged = false := by
    unfold LaplaceParallelTriMG.solveMode
    rw [hmode]
  simp [hc]

theorem solve_nonconverged_is_reported_witness :
    LaplaceParallelTriMG.solveMode sampleKernels sampleMGcapped sampleRhs 0
      = ⟨[⟨0, 0⟩, ⟨0, 0⟩], false, 2⟩ ∧
    (sampleMGcapped.solve sampleKernels sampleRhs).1.converged = false ∧
    (sampleMGcapped.solve sampleKernels sampleRhs).1.solution = { sampleRhs with data := [2] } :=
  solve_nonconverged_is_reported sampleKernels sampleMGcapped sampleRhs 0 (by decide)
    (by decide)

/-- C7: for every mode the driver declares convergence exactly when, on the solution it
returns, the relative residual is below rtol or the absolute residual is below atol;
either condition alone suffices, and convergence is not declared when the relative
residual is at least rtol and the absolute residual is at least atol. The solve indicates
convergence exactly when this holds in every mode. -/
theorem convergence_declared_iff (k : Kernels) (s : LaplaceParallelTriMG)
    (sys : TridiagonalSystem) (n : Nat) (x : List dcomplex) (c : Nat) (b : FieldPerp) :
    ((LaplaceParallelTriMG.driver k s sys n x c).converged = true ↔
      (k.error_rel sys (LaplaceParallelTriMG.driver k s sys n x c).soln < s.rtol ∨
       k.error_abs sys (LaplaceParallelTriMG.driver k s sys n x c).soln < s.atol)) ∧
    ((LaplaceParallelTriMG.driver k s sys n x c).converged = false ↔
      (s.rtol ≤ k.error_rel sys (LaplaceParallelTriMG.driver k s sys n x c).soln ∧
       s.atol ≤ k.error_abs sys (LaplaceParallelTriMG.driver k s sys n x c).soln)) ∧
    ((s.solve k b).1.converged = true ↔
      ∀ kz, kz < s.nmode.toNat →
        (k.error_rel (k.tridagMatrix s.A s.C s.D b kz)
            (LaplaceParallelTriMG.solveMode k s b kz).soln < s.rtol ∨
         k.error_abs (k.tridagMatrix s.A s.C s.D b kz)
            (LaplaceParallelTriMG.solveMode k s b kz).soln < s.atol)) := by
  have hd := LaplaceParallelTriMG.driver_converged_eq k s
  refine ⟨?_, ?_, ?_⟩
  · rw [hd, LaplaceParallelTriMG.meetsTolerance_iff]
  · rw [← Bool.not_eq_true, hd, LaplaceParallelTriMG.meetsTolerance_iff, not_or, not_lt, not_lt]
  · rw [LaplaceParallelTriMG.solve_converged_eq, List.all_eq_true]
    constructor
    · intro h kz hkz
      have h1 := h kz (List.mem_range.mpr hkz)
      unfold LaplaceParallelTriMG.solveMode at h1 ⊢
      rw [hd, LaplaceParallelTriMG.meetsTolerance_iff] at h1
      exact h1
    · intro h kz hkz
      have h1 := h kz (List.mem_range.mp hkz)
      unfold LaplaceParallelTriMG.solveMode at h1 ⊢
      rw [hd, LaplaceParallelTriMG.meetsTolerance_iff]
      exact h1

end BOUT
